import Mathlib

/-!
Shallow embedding of the Conduit pipeline core (src/mcp/router.py,
src/mcp/main.py, src/memory/memory.py, src/agents/classifier.py).

External effects are modelled explicitly:
  * the HTTP transport behind `ActionRouter._post_with_retries` is an oracle
    `attempts : Nat → AttemptResult` giving the observable result of the i-th
    POST attempt;
  * the Redis list behind `MemoryStore` is a Lean list of events; a possible
    storage exception raised by an append is injected through
    `Env.writeFail` (the code itself has no try/except around appends);
  * the out-of-scope classifier internals (`_bytes_to_text`, the regex intent
    scoring, the LLM call and `_parse_intent`) are oracle fields of
    `ClsOracle`; the format decision `_format_from_filename` is embedded
    exactly;
  * the per-format extraction agents are oracle functions returning
    `Except` (an exception or an extraction result).
-/

/-- A JSON-like value, the payload type stored in events and carried in HTTP
bodies (`value` fields, `response_body`, handler responses). -/
inductive Json where
  | null : Json
  | str : String → Json
  | num : Int → Json
  | bool : Bool → Json
  | arr : List Json → Json
  | obj : List (String × Json) → Json
deriving Repr

/-- Lookup of a field in a JSON object field list (first match wins, as in a
Python dict built from distinct keys). -/
def lookupField : List (String × Json) → String → Option Json
  | [], _ => none
  | (k, v) :: rest, name => if k = name then some v else lookupField rest name

/-- Python `d.get(name)` on a JSON value: a field of an object, else `None`. -/
def jsonGet : Json → String → Option Json
  | Json.obj fields, name => lookupField fields name
  | _, _ => none

/-- Python truthiness of a JSON value (used by `if metadata and ...`). -/
def pyTruthy : Json → Bool
  | Json.null => false
  | Json.str s => s != ""
  | Json.num n => n != 0
  | Json.bool b => b
  | Json.arr xs => !xs.isEmpty
  | Json.obj fs => !fs.isEmpty

/-- Python `f"{x}"` for an optional string: `None` prints as "None". -/
def pyShowOpt : Option String → String
  | none => "None"
  | some s => s

/-- An optional string as a JSON value (Python `None` becomes JSON null). -/
def pyOptJson : Option String → Json
  | none => Json.null
  | some s => Json.str s

/-- An event of the memory store (src/memory/memory.py): one JSON blob pushed
onto the Redis list `memory:events`. -/
structure Event where
  timestamp : String
  source : String
  key : String
  value : Json
deriving Repr

namespace MemoryStore

/-- MemoryStore.write: append one event at the right end of the list
(`rpush`, newest at the end).  `ts` stands for `datetime.utcnow().isoformat()`. -/
def write (store : List Event) (ts source key : String) (value : Json) : List Event :=
  store ++ [{ timestamp := ts, source := source, key := key, value := value }]

/-- MemoryStore.read_all: all events in append order (`lrange 0 -1`). -/
def read_all (store : List Event) : List Event :=
  store

/-- MemoryStore.read_by_source: the events whose source equals `source`. -/
def read_by_source (store : List Event) (source : String) : List Event :=
  (read_all store).filter (fun e => e.source == source)

/-- MemoryStore.read_by_key: the events whose key equals `key`. -/
def read_by_key (store : List Event) (key : String) : List Event :=
  (read_all store).filter (fun e => e.key == key)

end MemoryStore

/-- Observable result of one POST attempt inside
`ActionRouter._post_with_retries`:
  * `noResponse e`: `self.client.post` raised before any status was received
    (connection error or timeout); `http_status` is not assigned;
  * `httpError s e`: a response with error status `s` arrived and
    `resp.raise_for_status()` raised;
  * `badBody s e`: a response with non-error status `s` arrived but
    `resp.json()` raised (unparseable body);
  * `ok s b`: non-error status `s` and parseable body `b` — the loop returns
    success immediately. -/
inductive AttemptResult where
  | noResponse : String → AttemptResult
  | httpError : Nat → String → AttemptResult
  | badBody : Nat → String → AttemptResult
  | ok : Nat → Json → AttemptResult
deriving Repr

/-- Whether the attempt completed with a non-error HTTP status and a parseable
body (the only case in which the retry loop returns success). -/
def isOk : AttemptResult → Bool
  | AttemptResult.ok _ _ => true
  | _ => false

/-- The HTTP status assigned by the attempt (`http_status = resp.status_code`),
or `none` when the call raised before a response arrived. -/
def attemptStatus : AttemptResult → Option Nat
  | AttemptResult.noResponse _ => none
  | AttemptResult.httpError s _ => some s
  | AttemptResult.badBody s _ => some s
  | AttemptResult.ok s _ => some s

/-- The error description `str(e)` recorded by a failing attempt, `none` for a
successful one. -/
def attemptError : AttemptResult → Option String
  | AttemptResult.noResponse e => some e
  | AttemptResult.httpError _ e => some e
  | AttemptResult.badBody _ e => some e
  | AttemptResult.ok _ _ => none

/-- The parsed body of a successful attempt. -/
def okBody : AttemptResult → Option Json
  | AttemptResult.ok _ b => some b
  | _ => none

/-- The standardized outcome dict returned by the router: exactly the five
fields `status`, `target`, `http_status`, `response_body`, `error`. -/
structure ActionOutcome where
  status : String
  target : Option String
  http_status : Option Nat
  response_body : Option Json
  error : Option String
deriving Repr

/-- The three local variables threaded through the retry loop
(`last_error`, `http_status`, `response_body`, all initialized to `None`). -/
structure RetryState where
  last_error : Option String
  http_status : Option Nat
  response_body : Option Json
deriving Repr

/-- Python `path.lstrip("/")`: drop every leading slash. -/
def lstrip (s : String) : String :=
  String.mk (s.data.dropWhile (fun c => c == '/'))

/-- The body of the `for attempt in range(max_retries + 1)` loop of
`ActionRouter._post_with_retries`, with `i` the index of the next attempt,
`r` the number of attempts still allowed and `st` the loop variables.
Returns the outcome dict together with the number of POST calls made.
On a failing attempt the state is updated exactly as in the source:
`last_error = str(e)` always; `http_status = resp.status_code` only once a
response arrived; `response_body` only on the success path (which returns). -/
def postWithRetriesAux (path : String) (attempts : Nat → AttemptResult) :
    Nat → Nat → RetryState → ActionOutcome × Nat
  | _, 0, st =>
    ({ status := "error", target := some (lstrip path), http_status := st.http_status,
       response_body := st.response_body, error := st.last_error }, 0)
  | i, r + 1, st =>
    match attempts i with
    | AttemptResult.ok s b =>
      ({ status := "success", target := some (lstrip path), http_status := some s,
         response_body := some b, error := none }, 1)
    | AttemptResult.noResponse e =>
      let p := postWithRetriesAux path attempts (i + 1) r
        { st with last_error := some e }
      (p.1, p.2 + 1)
    | AttemptResult.httpError s e =>
      let p := postWithRetriesAux path attempts (i + 1) r
        { last_error := some e, http_status := some s, response_body := st.response_body }
      (p.1, p.2 + 1)
    | AttemptResult.badBody s e =>
      let p := postWithRetriesAux path attempts (i + 1) r
        { last_error := some e, http_status := some s, response_body := st.response_body }
      (p.1, p.2 + 1)

/-- ActionRouter._post_with_retries: up to `max_retries + 1` POST attempts,
starting from all-`None` loop state.  The `payload` does not influence the
modelled transport (the oracle `attempts` already fixes each response). -/
def post_with_retries (path : String) (payload : Json) (attempts : Nat → AttemptResult)
    (max_retries : Nat) : ActionOutcome × Nat :=
  postWithRetriesAux path attempts 0 (max_retries + 1)
    { last_error := none, http_status := none, response_body := none }

/-- The per-attempt update of the loop's `http_status` variable: assigned when
a response arrived, kept otherwise. -/
def statusUpd (init : Option Nat) (a : AttemptResult) : Option Nat :=
  match attemptStatus a with
  | some s => some s
  | none => init

/-- The `http_status` variable after attempts `i, i+1, ..., i+r-1`. -/
def foldStatusFrom (attempts : Nat → AttemptResult) : Nat → Nat → Option Nat → Option Nat
  | _, 0, init => init
  | i, r + 1, init => foldStatusFrom attempts (i + 1) r (statusUpd init (attempts i))

/-- The last HTTP status observed during the first `n` attempts, if any. -/
def lastObservedStatus (attempts : Nat → AttemptResult) (n : Nat) : Option Nat :=
  foldStatusFrom attempts 0 n none

/-- The per-attempt update of the loop's `last_error` variable. -/
def errUpd (init : Option String) (a : AttemptResult) : Option String :=
  match attemptError a with
  | some e => some e
  | none => init

/-- The `last_error` variable after attempts `i, i+1, ..., i+r-1`. -/
def lastErrFrom (attempts : Nat → AttemptResult) : Nat → Nat → Option String → Option String
  | _, 0, init => init
  | i, r + 1, init => lastErrFrom attempts (i + 1) r (errUpd init (attempts i))

/-- An action suggestion `{ "action": str, "target": str }` coming from an
agent; either key may be missing (`dict.get` yields `None`). -/
structure Suggestion where
  action : Option String
  target : Option String
deriving Repr

/-- ActionRouter.decide_and_execute: map the target to a path, build the
payload `{action, timestamp}`, delegate to the retrying POST for HTTP-bound
targets; `database` is an immediate success without any network call and
anything else an immediate error.  Also returns the number of POST calls. -/
def decide_and_execute (suggestion : Suggestion) (ts : String)
    (attempts : Nat → AttemptResult) : ActionOutcome × Nat :=
  let payload := Json.obj [("action", pyOptJson suggestion.action), ("timestamp", Json.str ts)]
  if suggestion.target = some "crm" then
    post_with_retries "/crm" payload attempts 2
  else if suggestion.target = some "risk_alert" then
    post_with_retries "/risk_alert" payload attempts 2
  else if suggestion.target = some "database" then
    ({ status := "success", target := some "database", http_status := none,
       response_body := some (Json.obj [("message", Json.str "Archived to database.")]),
       error := none }, 0)
  else
    ({ status := "error", target := suggestion.target, http_status := none,
       response_body := none,
       error := some ("Unknown target: " ++ pyShowOpt suggestion.target) }, 0)

/-- The simulated `/crm` endpoint of src/mcp/main.py: echoes a ticket-created
response whose `status` field is the string "escalate". -/
def crm_escalation (payload : Json) : Json :=
  Json.obj [("status", Json.str "escalate"),
            ("detail", Json.obj [("message", Json.str "CRM ticket created.")])]

/-- The simulated `/risk_alert` endpoint of src/mcp/main.py. -/
def risk_alert (payload : Json) : Json :=
  Json.obj [("status", Json.str "escalate"),
            ("detail", Json.obj [("message", Json.str "Risk alert logged.")])]

/-- ClassifierAgent._format_from_filename: the part of the filename after the
last dot, lowercased, decides the format; no dot means empty extension. -/
def format_from_filename (filename : String) : String :=
  let ext : String :=
    if filename.data.contains '.' then
      String.mk (((filename.data.map Char.toLower).reverse.takeWhile (fun c => c != '.')).reverse)
    else ""
  if ext = "json" then "JSON"
  else if ext = "pdf" then "PDF"
  else if ext = "eml" ∨ ext = "txt" ∨ ext = "email" then "Email"
  else "Unknown"

/-- Oracles for the classifier internals that are out of scope for the spec
(text extraction, regex intent scores, the LLM chain and its output parsing):
`bytesToText` models `_bytes_to_text(raw_bytes)`, `invoiceScore s` models
`_score_intents(s, fmt)["Invoice"]` (the only score the control flow reads;
the method ignores `fmt`), `llmRun` models `chain.run(input_format,
input_text)` and `parseIntent` models `_parse_intent(llm_output)`. -/
structure ClsOracle where
  bytesToText : String → String
  invoiceScore : String → Nat
  llmRun : String → String → String
  parseIntent : String → String

/-- The dict returned by ClassifierAgent.process:
`{"source": "classifier", "format": fmt, "intent": ...}`. -/
structure ClassificationResult where
  source : String
  format : String
  intent : String
deriving Repr

/-- The check `metadata and metadata.get("extraction", {}).get("document_type")
== "Tax Invoice"` of ClassifierAgent.process. -/
def metaDocTypeIsTaxInvoice (metadata : Option Json) : Bool :=
  match metadata with
  | none => false
  | some m =>
    pyTruthy m &&
      (match jsonGet ((jsonGet m "extraction").getD (Json.obj [])) "document_type" with
       | some (Json.str s) => s == "Tax Invoice"
       | _ => false)

/-- ClassifierAgent.process: format from the filename, snippet from the raw
bytes (truncated at 4096 characters), then the three intent branches of the
source (metadata document_type, the PDF invoice-score shortcut, the LLM
fallback).  The unused `top_intent` assignment of the source is dead code and
not modelled. -/
def classifierProcess (o : ClsOracle) (raw_bytes : String) (filename : String)
    (metadata : Option Json) : ClassificationResult :=
  let fmt := format_from_filename filename
  let snippet0 := o.bytesToText raw_bytes
  let snippet := if 4096 < snippet0.length then snippet0.take 4096 ++ "..." else snippet0
  if metaDocTypeIsTaxInvoice metadata then
    { source := "classifier", format := fmt, intent := "Invoice" }
  else if 2 ≤ o.invoiceScore snippet ∧ fmt = "PDF" then
    { source := "classifier", format := fmt, intent := "Invoice" }
  else
    { source := "classifier", format := fmt, intent := o.parseIntent (o.llmRun fmt snippet) }

/-- The dict `{source, data, action_suggestion}` returned by an extraction
agent (email_agent / json_agent / pdf_agent). -/
structure ExtractResult where
  source : String
  data : Json
  action_suggestion : Suggestion

/-- How the `/upload` handler of src/mcp/main.py can terminate abnormally:
an `HTTPException` it raises itself, an uncaught storage exception from a
`memory.write` (the handler has no try/except around appends), or an uncaught
exception from an extraction agent. -/
inductive UploadError where
  | httpExc : Nat → String → UploadError
  | storageExc : String → UploadError
  | agentExc : String → UploadError
deriving Repr

/-- The combined result dict returned by a successful `/upload` request. -/
structure UploadResponse where
  metadata : ClassificationResult
  extraction : Json
  action : ActionOutcome

/-- The classification metadata dict as the JSON value written to the log. -/
def classificationJson (m : ClassificationResult) : Json :=
  Json.obj [("source", Json.str m.source), ("format", Json.str m.format),
            ("intent", Json.str m.intent)]

/-- An optional HTTP status as a JSON value. -/
def optNatJson : Option Nat → Json
  | none => Json.null
  | some n => Json.num (Int.ofNat n)

/-- An optional JSON body as a JSON value. -/
def optJsonJson : Option Json → Json
  | none => Json.null
  | some j => j

/-- The outcome dict as the JSON value written to the log. -/
def outcomeJson (o : ActionOutcome) : Json :=
  Json.obj [("status", Json.str o.status), ("target", pyOptJson o.target),
            ("http_status", optNatJson o.http_status),
            ("response_body", optJsonJson o.response_body),
            ("error", pyOptJson o.error)]

/-- The external collaborators of one `/upload` request: the classifier
oracles, the three extraction agents (each either raises or returns an
`ExtractResult`), the transport behind the router, whether the i-th
`memory.write` of the request raises a storage exception (`some msg`) or
succeeds (`none`), and the wall clock. -/
structure Env where
  cls : ClsOracle
  emailAgent : String → ClassificationResult → Except String ExtractResult
  jsonAgent : String → ClassificationResult → Except String ExtractResult
  pdfAgent : String → ClassificationResult → Except String ExtractResult
  attempts : Nat → AttemptResult
  writeFail : Nat → Option String
  now : Nat → String

/-- One `memory.write(source, key, value)` call of the handler: either the
underlying `rpush` raises (the store is left unchanged and the exception
propagates, the handler catches nothing) or the event is appended. -/
def memWrite (env : Env) (i : Nat) (store : List Event) (source key : String)
    (value : Json) : Except UploadError (List Event) :=
  match env.writeFail i with
  | some msg => Except.error (UploadError.storageExc msg)
  | none => Except.ok (MemoryStore.write store (env.now i) source key value)

/-- The format dispatch of the `/upload` handler (step 2 of src/mcp/main.py):
select the extraction agent by the classified format; any format outside
{Email, JSON, PDF} raises `HTTPException(400, "Unknown format")`, an agent
exception propagates. -/
def extractStep (env : Env) (raw_bytes : String) (filename : String) :
    Except UploadError ExtractResult :=
  let metadata := classifierProcess env.cls raw_bytes filename none
  let fmt := metadata.format
  if fmt = "Email" then
    match env.emailAgent raw_bytes metadata with
    | Except.error e => Except.error (UploadError.agentExc e)
    | Except.ok r => Except.ok r
  else if fmt = "JSON" then
    match env.jsonAgent raw_bytes metadata with
    | Except.error e => Except.error (UploadError.agentExc e)
    | Except.ok r => Except.ok r
  else if fmt = "PDF" then
    match env.pdfAgent raw_bytes metadata with
    | Except.error e => Except.error (UploadError.agentExc e)
    | Except.ok r => Except.ok r
  else Except.error (UploadError.httpExc 400 "Unknown format")

/-- The `/upload` handler of src/mcp/main.py: classify, write metadata,
dispatch on the format (`extractStep`), write the extraction, route the
suggested action, write the outcome, return the combined dict.  The result
carries the handler's answer (response or propagated exception), the memory
store after the request, and the number of POST attempts the router made. -/
def upload (env : Env) (store : List Event) (raw_bytes : String) (filename : String) :
    Except UploadError UploadResponse × List Event × Nat :=
  let metadata := classifierProcess env.cls raw_bytes filename none
  match memWrite env 0 store "classifier" "metadata" (classificationJson metadata) with
  | Except.error e => (Except.error e, store, 0)
  | Except.ok store1 =>
    match extractStep env raw_bytes filename with
    | Except.error e => (Except.error e, store1, 0)
    | Except.ok result =>
      match memWrite env 1 store1 result.source "extraction" result.data with
      | Except.error e => (Except.error e, store1, 0)
      | Except.ok store2 =>
        let oc := decide_and_execute result.action_suggestion (env.now 2) env.attempts
        match memWrite env 2 store2 "router" "action" (outcomeJson oc.1) with
        | Except.error e => (Except.error e, store2, oc.2)
        | Except.ok store3 =>
          (Except.ok { metadata := metadata, extraction := result.data, action := oc.1 },
           store3, oc.2)

/-- A concrete classifier oracle for closed instances. -/
def clsOracleW : ClsOracle :=
  { bytesToText := fun _ => "snippet",
    invoiceScore := fun _ => 0,
    llmRun := fun _ _ => "Intent: RFQ",
    parseIntent := fun _ => "RFQ" }

/-- A concrete extraction result: store the parsed JSON order, archive to the
database. -/
def extractResW : ExtractResult :=
  { source := "json_agent",
    data := Json.obj [("product", Json.str "Widget A"), ("quantity", Json.num 100)],
    action_suggestion := { action := some "store", target := some "database" } }

/-- A concrete JSON agent for closed instances: extraction succeeds and
suggests archiving to the database. -/
def jsonAgentW : String → ClassificationResult → Except String ExtractResult :=
  fun _ _ => Except.ok extractResW

/-- A concrete healthy environment: storage never raises, the JSON agent
succeeds, the transport always answers 200 with an empty object. -/
def envW : Env :=
  { cls := clsOracleW,
    emailAgent := fun _ _ => Except.error "email agent not exercised",
    jsonAgent := jsonAgentW,
    pdfAgent := fun _ _ => Except.error "pdf agent not exercised",
    attempts := fun _ => AttemptResult.ok 200 (Json.obj []),
    writeFail := fun _ => none,
    now := fun _ => "2026-10-12T00:00:00" }

/-- The same environment except that the first `memory.write` of the request
(the metadata append) raises a storage exception. -/
def envC1fail : Env :=
  { envW with writeFail := fun i => if i = 0 then some "redis connection refused" else none }

/-- The same environment except that the second `memory.write` of the request
(the extraction append) raises a storage exception. -/
def envC1fail1 : Env :=
  { envW with writeFail := fun i => if i = 1 then some "redis connection refused" else none }

/-- The same environment except that the third `memory.write` of the request
(the action append) raises a storage exception. -/
def envC1fail2 : Env :=
  { envW with writeFail := fun i => if i = 2 then some "redis connection refused" else none }

/-- The outcome of routing a `database` suggestion. -/
def dbOutcome : ActionOutcome :=
  { status := "success", target := some "database", http_status := none,
    response_body := some (Json.obj [("message", Json.str "Archived to database.")]),
    error := none }

/-- The response `upload envW _ _ "order.json"` assembles when nothing fails. -/
def uploadRespW : UploadResponse :=
  { metadata := { source := "classifier", format := "JSON", intent := "RFQ" },
    extraction := Json.obj [("product", Json.str "Widget A"), ("quantity", Json.num 100)],
    action := dbOutcome }

/-- A transport on which every attempt fails with HTTP 500. -/
def attemptsAllFail : Nat → AttemptResult :=
  fun _ => AttemptResult.httpError 500 "Server error 500 for url /crm"

/-- A transport that times out on the first attempt and succeeds on the
second. -/
def attemptsSecondOk : Nat → AttemptResult :=
  fun i => if i = 0 then AttemptResult.noResponse "connect timeout"
           else AttemptResult.ok 200 (Json.obj [("status", Json.str "escalate")])


/-! Theorems.  First the lemmas about the retry loop, then one theorem per
claim of the specification. -/

/-- If every one of the `r` attempts starting at index `i` fails, the loop
runs them all, threading the state updates, and returns the error outcome
after exactly `r` POST calls. -/
theorem postWithRetriesAux_all_fail (path : String) (attempts : Nat → AttemptResult) :
    ∀ (r i : Nat) (st : RetryState), (∀ j, j < r → isOk (attempts (i + j)) = false) →
    postWithRetriesAux path attempts i r st =
      ({ status := "error", target := some (lstrip path),
         http_status := foldStatusFrom attempts i r st.http_status,
         response_body := st.response_body,
         error := lastErrFrom attempts i r st.last_error }, r) := by
  intro r
  induction r with
  | zero =>
    intro i st _
    rfl
  | succ r ih =>
    intro i st h
    have h0 : isOk (attempts i) = false := by
      have h1 := h 0 (Nat.succ_pos r)
      simpa using h1
    have hrec : ∀ j, j < r → isOk (attempts (i + 1 + j)) = false := by
      intro j hj
      have h2 := h (j + 1) (by omega)
      rwa [show i + (j + 1) = i + 1 + j by omega] at h2
    cases hA : attempts i with
    | ok s b =>
      rw [hA] at h0
      simp [isOk] at h0
    | noResponse e =>
      simp only [postWithRetriesAux, hA, ih (i + 1) _ hrec]
      simp [foldStatusFrom, lastErrFrom, statusUpd, errUpd, attemptStatus, attemptError, hA]
    | httpError s e =>
      simp only [postWithRetriesAux, hA, ih (i + 1) _ hrec]
      simp [foldStatusFrom, lastErrFrom, statusUpd, errUpd, attemptStatus, attemptError, hA]
    | badBody s e =>
      simp only [postWithRetriesAux, hA, ih (i + 1) _ hrec]
      simp [foldStatusFrom, lastErrFrom, statusUpd, errUpd, attemptStatus, attemptError, hA]

/-- When every attempt of a nonempty run fails, the final `last_error`
variable is the error description of the last attempt. -/
theorem lastErrFrom_all_fail (attempts : Nat → AttemptResult) :
    ∀ (r i : Nat) (init : Option String),
    (∀ j, j < r + 1 → isOk (attempts (i + j)) = false) →
    lastErrFrom attempts i (r + 1) init = attemptError (attempts (i + r)) := by
  intro r
  induction r with
  | zero =>
    intro i init h
    have h0 : isOk (attempts i) = false := by simpa using h 0 Nat.one_pos
    cases hA : attempts i with
    | ok s b =>
      rw [hA] at h0
      simp [isOk] at h0
    | noResponse e => simp [lastErrFrom, errUpd, attemptError, hA]
    | httpError s e => simp [lastErrFrom, errUpd, attemptError, hA]
    | badBody s e => simp [lastErrFrom, errUpd, attemptError, hA]
  | succ r ih =>
    intro i init h
    have hrec : ∀ j, j < r + 1 → isOk (attempts (i + 1 + j)) = false := by
      intro j hj
      have h2 := h (j + 1) (by omega)
      rwa [show i + (j + 1) = i + 1 + j by omega] at h2
    have hstep : lastErrFrom attempts i (r + 1 + 1) init
        = lastErrFrom attempts (i + 1) (r + 1) (errUpd init (attempts i)) := rfl
    rw [hstep, ih (i + 1) _ hrec, show i + 1 + r = i + (r + 1) by omega]

/-- If the first success is attempt `i + j` (all earlier ones fail) and the
loop still allows more than `j` attempts, it returns the success outcome of
that attempt after exactly `j + 1` POST calls, whatever the state. -/
theorem postWithRetriesAux_success (path : String) (attempts : Nat → AttemptResult) :
    ∀ (j i r : Nat) (st : RetryState), j < r →
    (∀ m, m < j → isOk (attempts (i + m)) = false) → isOk (attempts (i + j)) = true →
    postWithRetriesAux path attempts i r st =
      ({ status := "success", target := some (lstrip path),
         http_status := attemptStatus (attempts (i + j)),
         response_body := okBody (attempts (i + j)), error := none }, j + 1) := by
  intro j
  induction j with
  | zero =>
    intro i r st hr hprev hok
    cases r with
    | zero => omega
    | succ r =>
      rw [Nat.add_zero] at hok
      cases hA : attempts i with
      | ok s b => simp [postWithRetriesAux, hA, attemptStatus, okBody]
      | noResponse e =>
        rw [hA] at hok
        simp [isOk] at hok
      | httpError s e =>
        rw [hA] at hok
        simp [isOk] at hok
      | badBody s e =>
        rw [hA] at hok
        simp [isOk] at hok
  | succ j ih =>
    intro i r st hr hprev hok
    cases r with
    | zero => omega
    | succ r =>
      have h0 : isOk (attempts i) = false := by simpa using hprev 0 (Nat.succ_pos j)
      have hprev2 : ∀ m, m < j → isOk (attempts (i + 1 + m)) = false := by
        intro m hm
        have h2 := hprev (m + 1) (by omega)
        rwa [show i + (m + 1) = i + 1 + m by omega] at h2
      have hok2 : isOk (attempts (i + 1 + j)) = true := by
        rwa [show i + (j + 1) = i + 1 + j by omega] at hok
      have hidx : i + 1 + j = i + (j + 1) := by omega
      cases hA : attempts i with
      | ok s b =>
        rw [hA] at h0
        simp [isOk] at h0
      | noResponse e =>
        have hrw := ih (i + 1) r { st with last_error := some e } (by omega) hprev2 hok2
        simp only [postWithRetriesAux, hA, hrw, hidx]
      | httpError s e =>
        have hrw := ih (i + 1) r
          { last_error := some e, http_status := some s, response_body := st.response_body }
          (by omega) hprev2 hok2
        simp only [postWithRetriesAux, hA, hrw, hidx]
      | badBody s e =>
        have hrw := ih (i + 1) r
          { last_error := some e, http_status := some s, response_body := st.response_body }
          (by omega) hprev2 hok2
        simp only [postWithRetriesAux, hA, hrw, hidx]

/-- One failing attempt reduces the loop to its tail on some updated state,
adding one POST call; the updated state always records an error message. -/
theorem postWithRetriesAux_fail_step (path : String) (attempts : Nat → AttemptResult)
    (i r : Nat) (st : RetryState) (h : isOk (attempts i) = false) :
    ∃ st2 msg, st2.last_error = some msg ∧
      postWithRetriesAux path attempts i (r + 1) st =
        ((postWithRetriesAux path attempts (i + 1) r st2).1,
         (postWithRetriesAux path attempts (i + 1) r st2).2 + 1) := by
  cases hA : attempts i with
  | ok s b =>
    rw [hA] at h
    simp [isOk] at h
  | noResponse e =>
    exact ⟨{ st with last_error := some e }, e, rfl, by simp [postWithRetriesAux, hA]⟩
  | httpError s e =>
    exact ⟨{ last_error := some e, http_status := some s, response_body := st.response_body },
      e, rfl, by simp [postWithRetriesAux, hA]⟩
  | badBody s e =>
    exact ⟨{ last_error := some e, http_status := some s, response_body := st.response_body },
      e, rfl, by simp [postWithRetriesAux, hA]⟩

/-- The loop returns success exactly when it made at least one POST call and
the last call it made was the successful kind. -/
theorem postWithRetriesAux_success_iff (path : String) (attempts : Nat → AttemptResult) :
    ∀ (r i : Nat) (st : RetryState),
    ((postWithRetriesAux path attempts i r st).1.status = "success" ↔
      0 < (postWithRetriesAux path attempts i r st).2 ∧
      isOk (attempts (i + ((postWithRetriesAux path attempts i r st).2 - 1))) = true) := by
  intro r
  induction r with
  | zero =>
    intro i st
    constructor
    · intro h
      have h2 : ("error" : String) = "success" := h
      exact absurd h2 (by decide)
    · rintro ⟨h, -⟩
      have h2 : (0 : Nat) < 0 := h
      omega
  | succ r ih =>
    intro i st
    by_cases hok : isOk (attempts i) = true
    · cases hA : attempts i with
      | ok s b => simp [postWithRetriesAux, hA, isOk]
      | noResponse e =>
        rw [hA] at hok
        simp [isOk] at hok
      | httpError s e =>
        rw [hA] at hok
        simp [isOk] at hok
      | badBody s e =>
        rw [hA] at hok
        simp [isOk] at hok
    · have h0 : isOk (attempts i) = false := by simpa using hok
      obtain ⟨st2, msg, -, hred⟩ := postWithRetriesAux_fail_step path attempts i r st h0
      have hIH := ih (i + 1) st2
      simp only [hred, Nat.add_sub_cancel]
      rcases hn : (postWithRetriesAux path attempts (i + 1) r st2).2 with _ | m
      · rw [hn] at hIH
        constructor
        · intro h
          rcases hIH.mp h with ⟨hc, -⟩
          omega
        · rintro ⟨-, hok2⟩
          rw [Nat.add_zero] at hok2
          exact absurd hok2 hok
      · rw [hn] at hIH
        rw [hIH, show i + 1 + (m + 1 - 1) = i + (m + 1) by omega]
        constructor
        · rintro ⟨-, hok2⟩
          exact ⟨by omega, hok2⟩
        · rintro ⟨-, hok2⟩
          exact ⟨by omega, hok2⟩

/-- The loop's outcome status is always "success" or "error". -/
theorem postWithRetriesAux_status_cases (path : String) (attempts : Nat → AttemptResult) :
    ∀ (r i : Nat) (st : RetryState),
    (postWithRetriesAux path attempts i r st).1.status = "success" ∨
    (postWithRetriesAux path attempts i r st).1.status = "error" := by
  intro r
  induction r with
  | zero =>
    intro i st
    right
    rfl
  | succ r ih =>
    intro i st
    by_cases hok : isOk (attempts i) = true
    · cases hA : attempts i with
      | ok s b =>
        left
        simp [postWithRetriesAux, hA]
      | noResponse e =>
        rw [hA] at hok
        simp [isOk] at hok
      | httpError s e =>
        rw [hA] at hok
        simp [isOk] at hok
      | badBody s e =>
        rw [hA] at hok
        simp [isOk] at hok
    · have h0 : isOk (attempts i) = false := by simpa using hok
      obtain ⟨st2, msg, -, hred⟩ := postWithRetriesAux_fail_step path attempts i r st h0
      simp only [hred]
      exact ih (i + 1) st2

/-- As long as the loop is entered at least once whenever no error is
recorded yet, the outcome's error field is empty exactly on success. -/
theorem postWithRetriesAux_error_none_iff (path : String) (attempts : Nat → AttemptResult) :
    ∀ (r i : Nat) (st : RetryState), (st.last_error = none → 0 < r) →
    ((postWithRetriesAux path attempts i r st).1.error = none ↔
     (postWithRetriesAux path attempts i r st).1.status = "success") := by
  intro r
  induction r with
  | zero =>
    intro i st h
    constructor
    · intro he
      have he2 : st.last_error = none := he
      have := h he2
      omega
    · intro hs
      have hs2 : ("error" : String) = "success" := hs
      exact absurd hs2 (by decide)
  | succ r ih =>
    intro i st h
    by_cases hok : isOk (attempts i) = true
    · cases hA : attempts i with
      | ok s b => simp [postWithRetriesAux, hA]
      | noResponse e =>
        rw [hA] at hok
        simp [isOk] at hok
      | httpError s e =>
        rw [hA] at hok
        simp [isOk] at hok
      | badBody s e =>
        rw [hA] at hok
        simp [isOk] at hok
    · have h0 : isOk (attempts i) = false := by simpa using hok
      obtain ⟨st2, msg, hmsg, hred⟩ := postWithRetriesAux_fail_step path attempts i r st h0
      simp only [hred]
      exact ih (i + 1) st2 (fun hn => absurd hmsg (by simp [hn]))

/-- C2: if every attempt fails (throw, timeout, error HTTP status, or
unparseable body), exactly `max_retries + 1` POST attempts occur and the
outcome has status "error", the last observed HTTP status (if any) and the
last attempt's error description; if the first success is attempt `j + 1`
(1-indexed `k = j + 1 ≤ max_retries + 1`), exactly `j + 1` attempts occur and
the outcome is an immediate success carrying that attempt's status and body. -/
theorem conduit_c2_retry_bound (path : String) (payload : Json)
    (attempts : Nat → AttemptResult) (max_retries : Nat) :
    ((∀ i, i < max_retries + 1 → isOk (attempts i) = false) →
      (post_with_retries path payload attempts max_retries).2 = max_retries + 1 ∧
      (post_with_retries path payload attempts max_retries).1.status = "error" ∧
      (post_with_retries path payload attempts max_retries).1.http_status
        = lastObservedStatus attempts (max_retries + 1) ∧
      (post_with_retries path payload attempts max_retries).1.error
        = attemptError (attempts max_retries)) ∧
    (∀ j, j ≤ max_retries → (∀ i, i < j → isOk (attempts i) = false) →
      isOk (attempts j) = true →
      (post_with_retries path payload attempts max_retries).2 = j + 1 ∧
      (post_with_retries path payload attempts max_retries).1.status = "success" ∧
      (post_with_retries path payload attempts max_retries).1.http_status
        = attemptStatus (attempts j) ∧
      (post_with_retries path payload attempts max_retries).1.response_body
        = okBody (attempts j) ∧
      (post_with_retries path payload attempts max_retries).1.error = none) := by
  constructor
  · intro hall
    have hall0 : ∀ j, j < max_retries + 1 → isOk (attempts (0 + j)) = false := by
      intro j hj
      rw [Nat.zero_add]
      exact hall j hj
    have h1 := postWithRetriesAux_all_fail path attempts (max_retries + 1) 0
      { last_error := none, http_status := none, response_body := none } hall0
    have h2 := lastErrFrom_all_fail attempts max_retries 0 none hall0
    unfold post_with_retries
    rw [h1]
    refine ⟨rfl, rfl, rfl, ?_⟩
    simpa using h2
  · intro j hj hprev hok
    have hprev0 : ∀ m, m < j → isOk (attempts (0 + m)) = false := by
      intro m hm
      rw [Nat.zero_add]
      exact hprev m hm
    have hok0 : isOk (attempts (0 + j)) = true := by
      rw [Nat.zero_add]
      exact hok
    have h1 := postWithRetriesAux_success path attempts j 0 (max_retries + 1)
      { last_error := none, http_status := none, response_body := none } (by omega) hprev0 hok0
    unfold post_with_retries
    rw [h1]
    exact ⟨rfl, rfl, by rw [Nat.zero_add], by rw [Nat.zero_add], rfl⟩

/-- Witness for C2: on a transport failing every attempt with HTTP 500 the
loop makes 3 attempts and errors; on a transport that times out once and then
succeeds, it makes 2 attempts and succeeds. -/
theorem conduit_c2_retry_bound_witness :
    ((post_with_retries "/crm" Json.null attemptsAllFail 2).2 = 2 + 1 ∧
     (post_with_retries "/crm" Json.null attemptsAllFail 2).1.status = "error" ∧
     (post_with_retries "/crm" Json.null attemptsAllFail 2).1.http_status
       = lastObservedStatus attemptsAllFail (2 + 1) ∧
     (post_with_retries "/crm" Json.null attemptsAllFail 2).1.error
       = attemptError (attemptsAllFail 2)) ∧
    ((post_with_retries "/crm" Json.null attemptsSecondOk 2).2 = 1 + 1 ∧
     (post_with_retries "/crm" Json.null attemptsSecondOk 2).1.status = "success" ∧
     (post_with_retries "/crm" Json.null attemptsSecondOk 2).1.http_status
       = attemptStatus (attemptsSecondOk 1) ∧
     (post_with_retries "/crm" Json.null attemptsSecondOk 2).1.response_body
       = okBody (attemptsSecondOk 1) ∧
     (post_with_retries "/crm" Json.null attemptsSecondOk 2).1.error = none) := by
  constructor
  · exact (conduit_c2_retry_bound "/crm" Json.null attemptsAllFail 2).1 (fun i _ => rfl)
  · refine (conduit_c2_retry_bound "/crm" Json.null attemptsSecondOk 2).2 1 (by omega) ?_ rfl
    intro i hi
    have hi0 : i = 0 := by omega
    subst hi0
    rfl

/-- C3: the outcome of decide_and_execute has status "success" exactly when
the target required no network call (`database`) or the last POST attempt the
router made returned a non-error HTTP status with a parseable body. -/
theorem conduit_c3_success_invariant (suggestion : Suggestion) (ts : String)
    (attempts : Nat → AttemptResult) :
    ((decide_and_execute suggestion ts attempts).1.status = "success" ↔
      (suggestion.target = some "database" ∨
       (0 < (decide_and_execute suggestion ts attempts).2 ∧
        isOk (attempts ((decide_and_execute suggestion ts attempts).2 - 1)) = true))) := by
  by_cases h1 : suggestion.target = some "crm"
  · have hred : decide_and_execute suggestion ts attempts
        = postWithRetriesAux "/crm" attempts 0 (2 + 1)
            { last_error := none, http_status := none, response_body := none } := by
      simp [decide_and_execute, h1, post_with_retries]
    have hiff := postWithRetriesAux_success_iff "/crm" attempts (2 + 1) 0
      { last_error := none, http_status := none, response_body := none }
    rw [hred, h1]
    constructor
    · intro h
      have h4 := hiff.mp h
      exact Or.inr ⟨h4.1, by simpa using h4.2⟩
    · rintro (hdb | ⟨hpos, hok⟩)
      · exact absurd hdb (by decide)
      · exact hiff.mpr ⟨hpos, by simpa using hok⟩
  · by_cases h2 : suggestion.target = some "risk_alert"
    · have hred : decide_and_execute suggestion ts attempts
          = postWithRetriesAux "/risk_alert" attempts 0 (2 + 1)
              { last_error := none, http_status := none, response_body := none } := by
        simp [decide_and_execute, h1, h2, post_with_retries]
      have hiff := postWithRetriesAux_success_iff "/risk_alert" attempts (2 + 1) 0
        { last_error := none, http_status := none, response_body := none }
      rw [hred, h2]
      constructor
      · intro h
        have h4 := hiff.mp h
        exact Or.inr ⟨h4.1, by simpa using h4.2⟩
      · rintro (hdb | ⟨hpos, hok⟩)
        · exact absurd hdb (by decide)
        · exact hiff.mpr ⟨hpos, by simpa using hok⟩
    · by_cases h3 : suggestion.target = some "database"
      · have hred : decide_and_execute suggestion ts attempts
            = ({ status := "success", target := some "database", http_status := none,
                 response_body := some (Json.obj [("message", Json.str "Archived to database.")]),
                 error := none }, 0) := by
          simp [decide_and_execute, h1, h2, h3]
        rw [hred, h3]
        simp
      · have hred : decide_and_execute suggestion ts attempts
            = ({ status := "error", target := suggestion.target, http_status := none,
                 response_body := none,
                 error := some ("Unknown target: " ++ pyShowOpt suggestion.target) }, 0) := by
          simp [decide_and_execute, h1, h2, h3]
        rw [hred]
        constructor
        · intro h
          have h4 : ("error" : String) = "success" := h
          exact absurd h4 (by decide)
        · rintro (hdb | ⟨hpos, -⟩)
          · exact absurd hdb h3
          · have h4 : (0 : Nat) < 0 := hpos
            omega

/-- C4: a suggestion whose target is `database` yields an immediate success
outcome with no HTTP status and zero network calls, for every action string,
timestamp and transport. -/
theorem conduit_c4_database (action : Option String) (ts : String)
    (attempts : Nat → AttemptResult) :
    decide_and_execute { action := action, target := some "database" } ts attempts =
      ({ status := "success", target := some "database", http_status := none,
         response_body := some (Json.obj [("message", Json.str "Archived to database.")]),
         error := none }, 0) := by
  rfl

/-- C5: a suggestion whose target is none of crm, risk_alert and database
(including a missing target) yields an immediate error outcome naming the
unknown target, with zero network calls. -/
theorem conduit_c5_unknown_target (suggestion : Suggestion) (ts : String)
    (attempts : Nat → AttemptResult) (h1 : suggestion.target ≠ some "crm")
    (h2 : suggestion.target ≠ some "risk_alert") (h3 : suggestion.target ≠ some "database") :
    decide_and_execute suggestion ts attempts =
      ({ status := "error", target := suggestion.target, http_status := none,
         response_body := none,
         error := some ("Unknown target: " ++ pyShowOpt suggestion.target) }, 0) := by
  simp [decide_and_execute, h1, h2, h3]

/-- Witness for C5: the target "bogus" yields the immediate unknown-target
error outcome with zero POST calls. -/
theorem conduit_c5_unknown_target_witness :
    decide_and_execute { action := some "x", target := some "bogus" } "t0" attemptsAllFail =
      ({ status := "error", target := some "bogus", http_status := none,
         response_body := none, error := some "Unknown target: bogus" }, 0) := by
  rw [conduit_c5_unknown_target { action := some "x", target := some "bogus" } "t0"
    attemptsAllFail (by decide) (by decide) (by decide)]
  rfl

/-- C10: every outcome decide_and_execute returns (the `ActionOutcome`
structure fixes exactly the five fields status, target, http_status,
response_body, error) has status "success" or "error", and its error field is
empty exactly when the status is "success". -/
theorem conduit_c10_outcome_shape (suggestion : Suggestion) (ts : String)
    (attempts : Nat → AttemptResult) :
    ((decide_and_execute suggestion ts attempts).1.status = "success" ∨
     (decide_and_execute suggestion ts attempts).1.status = "error") ∧
    ((decide_and_execute suggestion ts attempts).1.error = none ↔
     (decide_and_execute suggestion ts attempts).1.status = "success") := by
  by_cases h1 : suggestion.target = some "crm"
  · have hred : decide_and_execute suggestion ts attempts
        = postWithRetriesAux "/crm" attempts 0 (2 + 1)
            { last_error := none, http_status := none, response_body := none } := by
      simp [decide_and_execute, h1, post_with_retries]
    rw [hred]
    exact ⟨postWithRetriesAux_status_cases "/crm" attempts (2 + 1) 0 _,
      postWithRetriesAux_error_none_iff "/crm" attempts (2 + 1) 0 _ (fun _ => by omega)⟩
  · by_cases h2 : suggestion.target = some "risk_alert"
    · have hred : decide_and_execute suggestion ts attempts
          = postWithRetriesAux "/risk_alert" attempts 0 (2 + 1)
              { last_error := none, http_status := none, response_body := none } := by
        simp [decide_and_execute, h1, h2, post_with_retries]
      rw [hred]
      exact ⟨postWithRetriesAux_status_cases "/risk_alert" attempts (2 + 1) 0 _,
        postWithRetriesAux_error_none_iff "/risk_alert" attempts (2 + 1) 0 _ (fun _ => by omega)⟩
    · by_cases h3 : suggestion.target = some "database"
      · have hred : decide_and_execute suggestion ts attempts
            = ({ status := "success", target := some "database", http_status := none,
                 response_body := some (Json.obj [("message", Json.str "Archived to database.")]),
                 error := none }, 0) := by
          simp [decide_and_execute, h1, h2, h3]
        rw [hred]
        exact ⟨Or.inl rfl, by simp⟩
      · have hred : decide_and_execute suggestion ts attempts
            = ({ status := "error", target := suggestion.target, http_status := none,
                 response_body := none,
                 error := some ("Unknown target: " ++ pyShowOpt suggestion.target) }, 0) := by
          simp [decide_and_execute, h1, h2, h3]
        rw [hred]
        refine ⟨Or.inr rfl, ?_⟩
        constructor
        · intro h
          have h4 : some ("Unknown target: " ++ pyShowOpt suggestion.target)
              = (none : Option String) := h
          exact absurd h4 (by simp)
        · intro h
          have h4 : ("error" : String) = "success" := h
          exact absurd h4 (by decide)

/-- C8: appending an event and reading the log back yields that event as the
last element, and the filtered reads agree with filtering read_all by the
same predicate, for every prior log state. -/
theorem conduit_c8_round_trip (store : List Event) (ts s k : String) (v : Json) :
    (MemoryStore.read_all (MemoryStore.write store ts s k v)).getLast?
      = some { timestamp := ts, source := s, key := k, value := v } ∧
    (∀ src, MemoryStore.read_by_source store src
      = (MemoryStore.read_all store).filter (fun e => e.source == src)) ∧
    (∀ key, MemoryStore.read_by_key store key
      = (MemoryStore.read_all store).filter (fun e => e.key == key)) := by
  refine ⟨?_, fun _ => rfl, fun _ => rfl⟩
  simp [MemoryStore.read_all, MemoryStore.write]

/-- C6 counterexample: the simulated sink handlers answer with status field
"escalate", not "success" as the claim states (at the concrete payload
`null`, the status field of both bodies is the string "escalate"). -/
theorem conduit_c6_counterexample :
    jsonGet (crm_escalation Json.null) "status" = some (Json.str "escalate") ∧
    jsonGet (risk_alert Json.null) "status" = some (Json.str "escalate") ∧
    Json.str "escalate" ≠ Json.str "success" := by
  refine ⟨rfl, rfl, ?_⟩
  intro h
  injection h with h2
  exact absurd h2 (by decide)

/-- C6 amended: for every POST payload the /crm and /risk_alert handlers
return a body of the form status "escalate" with a detail.message object. -/
theorem conduit_c6_sink_shape (payload : Json) :
    crm_escalation payload
      = Json.obj [("status", Json.str "escalate"),
                  ("detail", Json.obj [("message", Json.str "CRM ticket created.")])] ∧
    risk_alert payload
      = Json.obj [("status", Json.str "escalate"),
                  ("detail", Json.obj [("message", Json.str "Risk alert logged.")])] :=
  ⟨rfl, rfl⟩

/-- C1 counterexample: when the first EventLog append raises a storage error,
the upload request fails with that storage error instead of returning the
response it produces when the append succeeds — the write failure is not
reduced to a non-fatal warning and the pipeline does not continue. -/
theorem conduit_c1_counterexample :
    (upload envC1fail [] "raw" "order.json").1
      = Except.error (UploadError.storageExc "redis connection refused") ∧
    (upload envW [] "raw" "order.json").1 = Except.ok uploadRespW :=
  ⟨rfl, rfl⟩

/-- C1 amended: a storage error raised by any event-log append the request
executes propagates out of the handler, failing the request with that storage
error instead of a response.  For the metadata append the store is left
unchanged and no network call is made; for the extraction append (reached
when the format dispatch produced an extraction result) no network call is
made; for the action append the request likewise fails even though routing
already ran. -/
theorem conduit_c1_append_failure (env : Env) (store : List Event)
    (raw_bytes filename msg : String) :
    (env.writeFail 0 = some msg →
      (upload env store raw_bytes filename).1 = Except.error (UploadError.storageExc msg) ∧
      (upload env store raw_bytes filename).2.1 = store ∧
      (upload env store raw_bytes filename).2.2 = 0) ∧
    (∀ result, env.writeFail 0 = none →
      extractStep env raw_bytes filename = Except.ok result →
      env.writeFail 1 = some msg →
      (upload env store raw_bytes filename).1 = Except.error (UploadError.storageExc msg) ∧
      (upload env store raw_bytes filename).2.2 = 0) ∧
    (∀ result, env.writeFail 0 = none → env.writeFail 1 = none →
      extractStep env raw_bytes filename = Except.ok result →
      env.writeFail 2 = some msg →
      (upload env store raw_bytes filename).1 = Except.error (UploadError.storageExc msg)) := by
  refine ⟨fun h => ?_, fun result hw0 hres hw1 => ?_, fun result hw0 hw1 hres hw2 => ?_⟩
  · unfold upload
    simp [memWrite, h]
  · unfold upload
    simp [memWrite, hw0, hres, hw1]
  · unfold upload
    simp [memWrite, hw0, hw1, hres, hw2]

/-- Witness for the amended C1: each of the three appends of one request
failing, at concrete environments (metadata, extraction, action). -/
theorem conduit_c1_append_failure_witness :
    ((upload envC1fail [] "raw" "order.json").1
        = Except.error (UploadError.storageExc "redis connection refused") ∧
     (upload envC1fail [] "raw" "order.json").2.1 = ([] : List Event) ∧
     (upload envC1fail [] "raw" "order.json").2.2 = 0) ∧
    ((upload envC1fail1 [] "raw" "order.json").1
        = Except.error (UploadError.storageExc "redis connection refused") ∧
     (upload envC1fail1 [] "raw" "order.json").2.2 = 0) ∧
    (upload envC1fail2 [] "raw" "order.json").1
        = Except.error (UploadError.storageExc "redis connection refused") :=
  ⟨(conduit_c1_append_failure envC1fail [] "raw" "order.json" "redis connection refused").1 rfl,
   (conduit_c1_append_failure envC1fail1 [] "raw" "order.json" "redis connection refused").2.1
     extractResW rfl rfl rfl,
   (conduit_c1_append_failure envC1fail2 [] "raw" "order.json" "redis connection refused").2.2
     extractResW rfl rfl rfl rfl⟩

/-- C7: when the classified format is none of Email, JSON and PDF (and the
metadata append itself does not raise), the handler fails with
HTTPException 400 "Unknown format", makes no network call, and every event it
appended has key "metadata" — no "extraction" or "action" append happens. -/
theorem conduit_c7_unsupported_format (env : Env) (store : List Event)
    (raw_bytes filename : String) (hw : env.writeFail 0 = none)
    (hfmt : (classifierProcess env.cls raw_bytes filename none).format
      ∉ (["Email", "JSON", "PDF"] : List String)) :
    (upload env store raw_bytes filename).1
      = Except.error (UploadError.httpExc 400 "Unknown format") ∧
    (upload env store raw_bytes filename).2.2 = 0 ∧
    ∀ e ∈ (upload env store raw_bytes filename).2.1, e ∈ store ∨ e.key = "metadata" := by
  have h1 : ¬ ((classifierProcess env.cls raw_bytes filename none).format = "Email") := by
    intro h
    exact hfmt (by rw [h]; simp)
  have h2 : ¬ ((classifierProcess env.cls raw_bytes filename none).format = "JSON") := by
    intro h
    exact hfmt (by rw [h]; simp)
  have h3 : ¬ ((classifierProcess env.cls raw_bytes filename none).format = "PDF") := by
    intro h
    exact hfmt (by rw [h]; simp)
  have hred : upload env store raw_bytes filename
      = (Except.error (UploadError.httpExc 400 "Unknown format"),
         MemoryStore.write store (env.now 0) "classifier" "metadata"
           (classificationJson (classifierProcess env.cls raw_bytes filename none)), 0) := by
    unfold upload
    simp only [memWrite, hw]
    simp [extractStep, h1, h2, h3]
  rw [hred]
  refine ⟨rfl, rfl, ?_⟩
  intro e he
  simp only [MemoryStore.write, List.mem_append, List.mem_singleton] at he
  rcases he with he | he
  · exact Or.inl he
  · right
    rw [he]

/-- Witness for C7 at a concrete environment and the filename "file.xyz",
whose classified format is "Unknown". -/
theorem conduit_c7_unsupported_format_witness :
    (upload envW [] "b" "file.xyz").1
      = Except.error (UploadError.httpExc 400 "Unknown format") ∧
    (upload envW [] "b" "file.xyz").2.2 = 0 ∧
    ∀ e ∈ (upload envW [] "b" "file.xyz").2.1, e ∈ ([] : List Event) ∨ e.key = "metadata" :=
  conduit_c7_unsupported_format envW [] "b" "file.xyz" rfl (by decide)

/-- The format field of the classifier result is always the format derived
from the filename, whichever intent branch is taken. -/
theorem classifierProcess_format (o : ClsOracle) (raw_bytes filename : String)
    (metadata : Option Json) :
    (classifierProcess o raw_bytes filename metadata).format = format_from_filename filename := by
  simp only [classifierProcess]
  repeat' split
  all_goals rfl

/-- If an upload request returns a response, its metadata is exactly the
classifier's result for the request's bytes and filename. -/
theorem upload_ok_metadata (env : Env) (store : List Event) (raw_bytes filename : String)
    (resp : UploadResponse) (h : (upload env store raw_bytes filename).1 = Except.ok resp) :
    resp.metadata = classifierProcess env.cls raw_bytes filename none := by
  simp only [upload, memWrite] at h
  repeat' split at h
  all_goals simp only [Except.ok.injEq] at h
  all_goals first
    | exact absurd h (by simp)
    | (rw [← h])

/-- C9: for the filename "order.json" (whatever the uploaded bytes, in
particular the bytes of the object with product "Widget A" and quantity 100)
the classifier reports format "JSON", and any response the upload request
returns carries metadata.format = "JSON". -/
theorem conduit_c9_order_json (env : Env) (store : List Event) (raw_bytes : String) :
    (classifierProcess env.cls raw_bytes "order.json" none).format = "JSON" ∧
    ∀ resp, (upload env store raw_bytes "order.json").1 = Except.ok resp →
      resp.metadata.format = "JSON" := by
  have hfmt : (classifierProcess env.cls raw_bytes "order.json" none).format = "JSON" := by
    rw [classifierProcess_format]
    rfl
  refine ⟨hfmt, fun resp h => ?_⟩
  rw [upload_ok_metadata env store raw_bytes "order.json" resp h]
  exact hfmt

/-- Witness for C9 at the concrete environment in which the upload request
completes, with the claim's bytes. -/
theorem conduit_c9_order_json_witness :
    (classifierProcess envW.cls "\x7b\"product\":\"Widget A\",\"quantity\":100\x7d" "order.json"
      none).format = "JSON" ∧
    uploadRespW.metadata.format = "JSON" :=
  ⟨(conduit_c9_order_json envW [] "\x7b\"product\":\"Widget A\",\"quantity\":100\x7d").1,
   (conduit_c9_order_json envW [] "\x7b\"product\":\"Widget A\",\"quantity\":100\x7d").2
     uploadRespW rfl⟩
